import Mathlib

/-!
Shallow embedding of `DEX_AGENT.py` (a single-file ReAct-style agent that
answers questions about Uniswap V3 liquidity pools) and proofs about it.

Modelling conventions:
* Python `float` arithmetic is idealised as exact rational arithmetic (`ℚ`).
  Every numeric claim proved here is about sums, divisions by small integer
  constants and one fixed power, where the idealisation is faithful up to the
  stated tolerances.
* The Graph HTTP endpoint is an explicit oracle (`Network`): for each query the
  oracle returns either a transport/parsing exception (anything the Python
  `try` block turns into a `Failed to fetch ...` result), a GraphQL-level
  `errors` payload, or parsed response data.  `datetime.now()` is the oracle
  field `now`; `timedelta(days = k)` is `k * 86400` seconds.
* Each tool additionally returns the list of network requests it issued, in
  order, mirroring the `requests.post` calls of the source.  The Python
  functions return dictionaries that either carry an `"error"` key or the
  success fields; those two shapes are embedded as an explicit sum type.
* Python `round(x, n)` is embedded as rounding `x * 10^n` to the nearest
  integer; no claim below depends on behaviour at exact ties.
-/

/-- Exceptions that can escape the agent loop (Python has no handler around
tool dispatch in `DexLiquidityAgent.run`). -/
inductive PyExn where
  | keyError (key : String)
  | typeError (msg : String)
  deriving DecidableEq, Repr

/-- Result of one Graph query as seen by the `try` block of a tool: a raised
exception (network failure, non-2xx status, malformed JSON, a failed `float`
conversion), a response carrying a GraphQL `errors` key, or parsed data. -/
inductive GraphReply (α : Type) where
  | exn (msg : String)
  | graphqlErrors (msg : String)
  | ok (data : α)
  deriving DecidableEq, Repr

/-- Parsed `pool` object of the TVL query (only the fields the code reads). -/
structure PoolTVLData where
  id : String
  token0_symbol : String
  token1_symbol : String
  totalValueLockedUSD : ℚ
  totalValueLockedToken0 : ℚ
  totalValueLockedToken1 : ℚ
  feeTier : ℤ
  deriving DecidableEq, Repr

/-- Parsed `pool` object of the volume query. -/
structure PoolMeta where
  id : String
  token0_symbol : String
  token1_symbol : String
  deriving DecidableEq, Repr

/-- One `poolDayDatas` record (only the fields the code reads). -/
structure PoolDayData where
  volumeUSD : ℚ
  feesUSD : ℚ
  deriving DecidableEq, Repr

/-- Parsed data of the volume query: `pool` may be `null`, plus the day list. -/
structure VolumeQueryData where
  pool : Option PoolMeta
  poolDayDatas : List PoolDayData
  deriving DecidableEq, Repr

/-- Network requests a tool can issue, with the variables it sends. -/
inductive NetRequest where
  | tvlQuery (poolAddress : String)
  | volumeQuery (poolAddress : String) (startTime : ℤ)
  deriving DecidableEq, Repr

/-- The external world: current wall-clock time and the subgraph's reply to
each of the two query shapes, keyed by the variables sent. -/
structure Network where
  now : ℤ
  tvl : String → GraphReply (Option PoolTVLData)
  volume : String → ℤ → GraphReply VolumeQueryData

/-- Success payload of `get_tvl` (the dictionary built at the end). -/
structure TVLOk where
  pool_address : String
  pair : String
  tvl_usd : ℚ
  tvl_token0 : ℚ
  tvl_token1 : ℚ
  fee_tier : ℚ
  token0 : String
  token1 : String
  deriving DecidableEq, Repr

/-- A tool's returned dictionary: either an `"error"` entry or success data. -/
inductive ToolReturn (α : Type) where
  | error (msg : String)
  | ok (val : α)
  deriving DecidableEq, Repr

/-- get_tvl, embedded from the source.  The request list records the single
`requests.post` this function performs; the oracle's `.ok none` is the parsed
response whose `pool` field is `null` (the `not found` branch). -/
def get_tvl (net : Network) (pool_address : String) : ToolReturn TVLOk × List NetRequest :=
  let addr := pool_address.toLower
  let req := NetRequest.tvlQuery addr
  match net.tvl addr with
  | .exn m => (.error ("Failed to fetch TVL: " ++ m), [req])
  | .graphqlErrors e => (.error ("GraphQL errors: " ++ e), [req])
  | .ok none => (.error ("Pool " ++ pool_address ++ " not found"), [req])
  | .ok (some pool) =>
      (.ok { pool_address := pool.id
             pair := pool.token0_symbol ++ "/" ++ pool.token1_symbol
             tvl_usd := pool.totalValueLockedUSD
             tvl_token0 := pool.totalValueLockedToken0
             tvl_token1 := pool.totalValueLockedToken1
             fee_tier := (pool.feeTier : ℚ) / 10000
             token0 := pool.token0_symbol
             token1 := pool.token1_symbol }, [req])

/-- Success payload of `get_volume`. -/
structure VolumeOk where
  pool_address : String
  pair : String
  period : String
  total_volume_usd : ℚ
  average_daily_volume_usd : ℚ
  total_fees_usd : ℚ
  average_daily_fees_usd : ℚ
  data_points : ℕ
  deriving DecidableEq, Repr

/-- The `if period == ...` chain at the top of `get_volume`: start timestamp
and day count for each recognised period, `none` otherwise. -/
def periodBranch (now : ℤ) (period : String) : Option (ℤ × ℕ) :=
  if period = "24h" then some (now - 86400, 1)
  else if period = "7d" then some (now - 7 * 86400, 7)
  else if period = "30d" then some (now - 30 * 86400, 30)
  else none

/-- The error string for an unrecognised period. -/
def invalidPeriodMessage : String :=
  "Invalid period. Use \x2724h\x27, \x277d\x27, or \x2730d\x27"

/-- get_volume, embedded from the source.  Invalid periods return before any
request is issued (empty request list). -/
def get_volume (net : Network) (pool_address : String) (period : String) :
    ToolReturn VolumeOk × List NetRequest :=
  match periodBranch net.now period with
  | none => (.error invalidPeriodMessage, [])
  | some (start_timestamp, days) =>
      let addr := pool_address.toLower
      let req := NetRequest.volumeQuery addr start_timestamp
      match net.volume addr start_timestamp with
      | .exn m => (.error ("Failed to fetch volume: " ++ m), [req])
      | .graphqlErrors e => (.error ("GraphQL errors: " ++ e), [req])
      | .ok data =>
          match data.pool with
          | none => (.error ("Pool " ++ pool_address ++ " not found"), [req])
          | some pool =>
              let total_volume_usd := (data.poolDayDatas.map PoolDayData.volumeUSD).sum
              let total_fees_usd := (data.poolDayDatas.map PoolDayData.feesUSD).sum
              let avg_daily_volume :=
                if days > 0 then total_volume_usd / (days : ℚ) else 0
              let avg_daily_fees :=
                if days > 0 then total_fees_usd / (days : ℚ) else 0
              (.ok { pool_address := pool.id
                     pair := pool.token0_symbol ++ "/" ++ pool.token1_symbol
                     period := period
                     total_volume_usd := total_volume_usd
                     average_daily_volume_usd := avg_daily_volume
                     total_fees_usd := total_fees_usd
                     average_daily_fees_usd := avg_daily_fees
                     data_points := data.poolDayDatas.length }, [req])

/-- Python `round(x, 2)` idealised over `ℚ` (nearest multiple of `1/100`). -/
def round2 (x : ℚ) : ℚ := (round (x * 100) : ℤ) / 100

/-- Python `round(x, 4)` idealised over `ℚ` (nearest multiple of `1/10000`). -/
def round4 (x : ℚ) : ℚ := (round (x * 10000) : ℤ) / 10000

/-- Success payload of `get_apy`. -/
structure ApyOk where
  pool_address : String
  pair : String
  fee_tier : ℚ
  tvl_usd : ℚ
  apy_24h : ℚ
  apy_7d : ℚ
  apy_30d : ℚ
  daily_fees_usd : ℚ
  daily_rate : ℚ
  note : String
  deriving DecidableEq, Repr

/-- get_apy, embedded from the source: TVL first (propagating its error and
rejecting non-positive TVL), then 24h volume (propagating its error), then the
7d/30d volumes whose errors leave `apy_7d`/`apy_30d` at their initial `0`. -/
def get_apy (net : Network) (pool_address : String) :
    ToolReturn ApyOk × List NetRequest :=
  let (tvl_data, t1) := get_tvl net pool_address
  match tvl_data with
  | .error e => (.error e, t1)
  | .ok tvl =>
      let tvl_usd := tvl.tvl_usd
      if tvl_usd ≤ 0 then
        (.error "TVL is zero or negative, cannot calculate APY", t1)
      else
        let (volume_data, t2) := get_volume net pool_address "24h"
        match volume_data with
        | .error e => (.error e, t1 ++ t2)
        | .ok vol =>
            let daily_fees := vol.total_fees_usd
            let daily_rate := daily_fees / tvl_usd
            let apy := ((1 + daily_rate) ^ (365 : ℕ) - 1) * 100
            let (volume_7d, t3) := get_volume net pool_address "7d"
            let (volume_30d, t4) := get_volume net pool_address "30d"
            let apy_7d : ℚ :=
              match volume_7d with
              | .error _ => 0
              | .ok v7 =>
                  ((1 + v7.average_daily_fees_usd / tvl_usd) ^ (365 : ℕ) - 1) * 100
            let apy_30d : ℚ :=
              match volume_30d with
              | .error _ => 0
              | .ok v30 =>
                  ((1 + v30.average_daily_fees_usd / tvl_usd) ^ (365 : ℕ) - 1) * 100
            (.ok { pool_address := pool_address
                   pair := tvl.pair
                   fee_tier := tvl.fee_tier
                   tvl_usd := tvl_usd
                   apy_24h := round2 apy
                   apy_7d := round2 apy_7d
                   apy_30d := round2 apy_30d
                   daily_fees_usd := daily_fees
                   daily_rate := round4 (daily_rate * 100)
                   note := "APY calculated from fees generated, actual returns may vary due to impermanent loss" },
             t1 ++ t2 ++ t3 ++ t4)

/-!
The agent loop of `DexLiquidityAgent.run`.

* The model gateway is an oracle `List Message → AssistantResponse`: given the
  conversation so far it returns one assistant turn.  Quantifying over the
  oracle quantifies over every possible sequence of model responses.
* Tool-call arguments arrive already JSON-parsed as a flat string-to-string
  object (the schemas declare only string parameters); `json.loads` failures
  on non-JSON argument text are outside the embedded behaviours.
* `json.dumps(function_response)` is injective on the dictionaries the tools
  build, so a tool message's content is kept as the structured result itself
  (`ToolPayload`) instead of its serialisation.
* The Python `messages` list is mutated in place, so the caller observes every
  message appended before an exception; `runFrom` therefore returns the final
  message list in all outcomes, together with the result and the number of
  loop iterations executed (observable in the source as the per-iteration
  print).
-/

/-- A JSON-parsed tool-call argument object: flat string keys and values. -/
abbrev Args := List (String × String)

/-- One tool invocation requested by the model. -/
structure ToolCall where
  id : String
  name : String
  arguments : Args
  deriving DecidableEq, Repr

/-- One assistant turn returned by the model gateway. -/
structure AssistantResponse where
  content : String
  tool_calls : List ToolCall
  deriving DecidableEq, Repr

/-- Content of a tool message: the (injectively serialised) tool result. -/
inductive ToolPayload where
  | tvl (r : ToolReturn TVLOk)
  | volume (r : ToolReturn VolumeOk)
  | apy (r : ToolReturn ApyOk)
  deriving DecidableEq, Repr

instance : Inhabited ToolPayload := ⟨.tvl (.error "")⟩

/-- A conversation message. -/
inductive Message where
  | system (content : String)
  | user (content : String)
  | assistant (content : String) (tool_calls : List ToolCall)
  | tool (tool_call_id : String) (content : ToolPayload)
  deriving DecidableEq, Repr

/-- Tags for the three registered implementations. -/
inductive ToolImpl where
  | tvl
  | volume
  | apy
  deriving DecidableEq, Repr

/-- The `self.available_functions` dictionary: name-to-implementation map. -/
def available_functions (name : String) : Option ToolImpl :=
  if name = "get_tvl" then some .tvl
  else if name = "get_volume" then some .volume
  else if name = "get_apy" then some .apy
  else none

/-- Keyword lookup in a parsed argument object. -/
def lookupArg (args : Args) (k : String) : Option String :=
  (args.find? (fun kv => kv.1 == k)).map (fun kv => kv.2)

/-- Python keyword-argument binding plus the call itself,
`function_to_call(**function_args)`: a missing required parameter or an
unexpected keyword raises `TypeError`; otherwise the tool runs (tools catch
their own internal exceptions and return dictionaries). -/
def bindAndCall (net : Network) (impl : ToolImpl) (args : Args) :
    Except PyExn ToolPayload :=
  match impl with
  | .tvl =>
      if args.all (fun kv => kv.1 == "pool_address") then
        match lookupArg args "pool_address" with
        | some p => .ok (.tvl (get_tvl net p).1)
        | none => .error (.typeError "get_tvl missing required argument: pool_address")
      else .error (.typeError "get_tvl got an unexpected keyword argument")
  | .volume =>
      if args.all (fun kv => kv.1 == "pool_address" || kv.1 == "period") then
        match lookupArg args "pool_address" with
        | some p =>
            .ok (.volume (get_volume net p ((lookupArg args "period").getD "24h")).1)
        | none => .error (.typeError "get_volume missing required argument: pool_address")
      else .error (.typeError "get_volume got an unexpected keyword argument")
  | .apy =>
      if args.all (fun kv => kv.1 == "pool_address") then
        match lookupArg args "pool_address" with
        | some p => .ok (.apy (get_apy net p).1)
        | none => .error (.typeError "get_apy missing required argument: pool_address")
      else .error (.typeError "get_apy got an unexpected keyword argument")

/-- Processing of one requested invocation inside the loop body: the registry
lookup `self.available_functions[function_name]` (a plain dictionary index
that raises `KeyError` on an unknown name — there is no handler), then the
call. -/
def execOne (net : Network) (tc : ToolCall) : Except PyExn ToolPayload :=
  match available_functions tc.name with
  | none => .error (.keyError tc.name)
  | some impl => bindAndCall net impl tc.arguments

/-- The `for tool_call in response_message.tool_calls` body: append one tool
message per invocation, in request order; an exception aborts the loop but the
messages already appended remain (in-place mutation). -/
def execToolCalls (net : Network) :
    List ToolCall → List Message → Except PyExn Unit × List Message
  | [], msgs => (.ok (), msgs)
  | tc :: rest, msgs =>
      match execOne net tc with
      | .error e => (.error e, msgs)
      | .ok payload => execToolCalls net rest (msgs ++ [Message.tool tc.id payload])

/-- Outcome of `DexLiquidityAgent.run`: the returned string or the escaped
exception, the number of iterations executed, and the caller-visible final
message list. -/
structure RunResult where
  result : Except PyExn String
  iterations : ℕ
  messages : List Message
  deriving Repr

/-- The string returned when the iteration budget is exhausted. -/
def maxIterationsMessage : String :=
  "Maximum iterations reached. The agent couldn\x27t complete the task."

/-- The `while iteration < self.max_iterations` loop, by remaining budget:
ask the model, append its turn verbatim; with no tool calls return its
content, otherwise execute the calls in order and continue. -/
def runFrom (net : Network) (model : List Message → AssistantResponse) :
    ℕ → List Message → RunResult
  | 0, msgs => ⟨.ok maxIterationsMessage, 0, msgs⟩
  | n + 1, msgs =>
      let resp := model msgs
      let msgs1 := msgs ++ [Message.assistant resp.content resp.tool_calls]
      if resp.tool_calls.isEmpty then ⟨.ok resp.content, 1, msgs1⟩
      else
        match execToolCalls net resp.tool_calls msgs1 with
        | (.error e, msgs2) => ⟨.error e, 1, msgs2⟩
        | (.ok _, msgs2) =>
            let r := runFrom net model n msgs2
            ⟨r.result, r.iterations + 1, r.messages⟩

/-- `self.max_iterations` as set in `__init__`. -/
def max_iterations : ℕ := 10

/-- `DexLiquidityAgent.run` with the default iteration budget. -/
def run (net : Network) (model : List Message → AssistantResponse)
    (messages : List Message) : RunResult :=
  runFrom net model max_iterations messages

/-!
Startup configuration (module top level of `DEX_AGENT.py`).
-/

/-- The process environment after `load_dotenv()`: the two secrets. -/
structure Environ where
  openai_api_key : Option String
  graph_api_key : Option String

/-- The configuration the module builds at import time. -/
structure Config where
  openai_key : String
  subgraph_url : String
  deriving DecidableEq, Repr

/-- Python `f"...{x}..."` interpolation of an `os.getenv` result: `None`
renders as the literal text `None`. -/
def optStr : Option String → String
  | none => "None"
  | some s => s

/-- Module-level startup: `OpenAI(api_key=os.getenv("OPENAI_API_KEY"))`
followed by `GRAPH_API_KEY = os.getenv("GRAPH_API_KEY")` and the f-string
building `UNISWAP_V3_SUBGRAPH`.  The `OpenAI` constructor branch is modelled
from the openai client library the source imports: it raises when no API key
is configured.  `GRAPH_API_KEY` is read with no check at all: a missing key
simply embeds `None` into the endpoint URL. -/
def startup (env : Environ) : Except String Config :=
  match env.openai_api_key with
  | none => .error "The api_key client option must be set"
  | some k =>
      .ok { openai_key := k
            subgraph_url :=
              "https://gateway.thegraph.com/api/" ++ optStr env.graph_api_key ++
                "/subgraphs/id/5zvR82QoaXYFyDEKLZ9t6v9adgnptxYpKpSbxtgVENFV" }

/-!
Concrete fixtures (oracles and expected records) used by witnesses and
counterexamples, and small result projections used to state claims.
-/

/-- Pool metadata used by the concrete fixtures. -/
def poolMetaFix : PoolMeta :=
  { id := "0xpool", token0_symbol := "USDC", token1_symbol := "WETH" }

/-- Three daily records with volumes 100, 200, 300 and fees 1, 2, 3. -/
def days3 : List PoolDayData :=
  [{ volumeUSD := 100, feesUSD := 1 },
   { volumeUSD := 200, feesUSD := 2 },
   { volumeUSD := 300, feesUSD := 3 }]

/-- Oracle answering every volume query with the three-record day list. -/
def netVol : Network :=
  { now := 0
    tvl := fun _ => .exn "offline"
    volume := fun _ _ => .ok { pool := some poolMetaFix, poolDayDatas := days3 } }

/-- TVL pool object with zero locked value. -/
def poolZero : PoolTVLData :=
  { id := "0xpool", token0_symbol := "USDC", token1_symbol := "WETH"
    totalValueLockedUSD := 0, totalValueLockedToken0 := 0
    totalValueLockedToken1 := 0, feeTier := 500 }

/-- Oracle whose TVL query succeeds with zero TVL; volume queries fail. -/
def netZero : Network :=
  { now := 0
    tvl := fun _ => .ok (some poolZero)
    volume := fun _ _ => .exn "offline" }

/-- The `get_tvl` success record for `netZero`. -/
def tvlZeroFix : TVLOk :=
  { pool_address := "0xpool", pair := "USDC" ++ "/" ++ "WETH"
    tvl_usd := 0, tvl_token0 := 0, tvl_token1 := 0
    fee_tier := ((500 : ℤ) : ℚ) / 10000, token0 := "USDC", token1 := "WETH" }

/-- TVL pool object with one million USD locked. -/
def poolMillion : PoolTVLData :=
  { id := "0xpool", token0_symbol := "USDC", token1_symbol := "WETH"
    totalValueLockedUSD := 1000000, totalValueLockedToken0 := 500
    totalValueLockedToken1 := 250, feeTier := 500 }

/-- One day record carrying 1000 USD of fees. -/
def day1000 : PoolDayData := { volumeUSD := 0, feesUSD := 1000 }

/-- Oracle with a million-dollar TVL whose 24h volume query succeeds with
1000 USD of daily fees while the 7d and 30d queries fail. -/
def netAPY : Network :=
  { now := 0
    tvl := fun _ => .ok (some poolMillion)
    volume := fun _ st =>
      if st = 0 - 86400 then .ok { pool := some poolMetaFix, poolDayDatas := [day1000] }
      else .exn "conn" }

/-- Oracle with a positive TVL whose volume queries all fail. -/
def netVolErr : Network :=
  { now := 0
    tvl := fun _ => .ok (some poolMillion)
    volume := fun _ _ => .exn "conn" }

/-- The `get_tvl` success record for `netAPY` and `netVolErr`. -/
def tvlMillionFix : TVLOk :=
  { pool_address := "0xpool", pair := "USDC" ++ "/" ++ "WETH"
    tvl_usd := 1000000, tvl_token0 := 500, tvl_token1 := 250
    fee_tier := ((500 : ℤ) : ℚ) / 10000, token0 := "USDC", token1 := "WETH" }

/-- The `get_volume` success record for `netAPY` under the `24h` period. -/
def vol24Fix : VolumeOk :=
  { pool_address := "0xpool", pair := "USDC" ++ "/" ++ "WETH"
    period := "24h"
    total_volume_usd := ([day1000].map PoolDayData.volumeUSD).sum
    average_daily_volume_usd :=
      ([day1000].map PoolDayData.volumeUSD).sum / ((1 : ℕ) : ℚ)
    total_fees_usd := ([day1000].map PoolDayData.feesUSD).sum
    average_daily_fees_usd :=
      ([day1000].map PoolDayData.feesUSD).sum / ((1 : ℕ) : ℚ)
    data_points := [day1000].length }

/-- The `get_apy` success record for `netAPY` (fields spelled as the
unevaluated expressions the code builds, so the equation is definitional). -/
def apyFix : ApyOk :=
  { pool_address := "0xpool"
    pair := "USDC" ++ "/" ++ "WETH"
    fee_tier := ((500 : ℤ) : ℚ) / 10000
    tvl_usd := 1000000
    apy_24h := round2 (((1 + ([day1000].map PoolDayData.feesUSD).sum /
      (1000000 : ℚ)) ^ (365 : ℕ) - 1) * 100)
    apy_7d := round2 0
    apy_30d := round2 0
    daily_fees_usd := ([day1000].map PoolDayData.feesUSD).sum
    daily_rate := round4 (([day1000].map PoolDayData.feesUSD).sum /
      (1000000 : ℚ) * 100)
    note := "APY calculated from fees generated, actual returns may vary due to impermanent loss" }

/-- Projection of the `apy_24h` field of a `get_apy` result. -/
def apy24hOf : ToolReturn ApyOk → Option ℚ
  | .error _ => none
  | .ok r => some r.apy_24h

/-- Projection of the `apy_7d` field of a `get_apy` result. -/
def apy7dOf : ToolReturn ApyOk → Option ℚ
  | .error _ => none
  | .ok r => some r.apy_7d

/-- Projection of the `apy_30d` field of a `get_apy` result. -/
def apy30dOf : ToolReturn ApyOk → Option ℚ
  | .error _ => none
  | .ok r => some r.apy_30d

/-- Whether a tool's dictionary is success-shaped (no `"error"` key). -/
def isOkReturn {α : Type} : ToolReturn α → Bool
  | .error _ => false
  | .ok _ => true

/-- The payload a successful tool execution appends (default-valued on the
impossible failure side, used only under a success hypothesis). -/
def payloadOf (net : Network) (tc : ToolCall) : ToolPayload :=
  (execOne net tc).toOption.getD default

/-- A tool call whose name is not registered. -/
def tcUnknown : ToolCall := { id := "call_1", name := "get_price", arguments := [] }

/-- A well-formed `get_tvl` call. -/
def tcTvl : ToolCall :=
  { id := "call_2", name := "get_tvl", arguments := [("pool_address", "0xpool")] }

/-- Another unregistered tool call, used in a two-call batch. -/
def tcNope : ToolCall := { id := "a", name := "nope", arguments := [] }

/-- A model that always requests the single unknown tool. -/
def modelUnknown : List Message → AssistantResponse :=
  fun _ => { content := "", tool_calls := [tcUnknown] }

/-- A model that always requests one well-formed `get_tvl` call. -/
def modelLoop : List Message → AssistantResponse :=
  fun _ => { content := "", tool_calls := [tcTvl] }

/-- A model requesting a batch of two calls whose first is unknown. -/
def modelMixed : List Message → AssistantResponse :=
  fun _ => { content := "", tool_calls := [tcNope, tcTvl] }

/-- A model requesting a batch of a known call followed by an unknown one. -/
def modelPre : List Message → AssistantResponse :=
  fun _ => { content := "", tool_calls := [tcTvl, tcUnknown] }

/-!
Helper lemmas.
-/

/-- Recognised periods map to day counts 1, 7 or 30. -/
lemma periodBranch_days {now : ℤ} {period : String} {st : ℤ} {days : ℕ}
    (h : periodBranch now period = some (st, days)) :
    days = 1 ∨ days = 7 ∨ days = 30 := by
  unfold periodBranch at h
  split_ifs at h <;> simp only [Option.some.injEq, Prod.mk.injEq] at h <;> omega

/-- Shape of a fully successful `get_volume` call: totals are the sums over
the returned day records and averages divide the totals by the day count. -/
lemma get_volume_ok_shape (net : Network) (p period : String) (st : ℤ)
    (days : ℕ) (data : VolumeQueryData) (pool : PoolMeta)
    (hp : periodBranch net.now period = some (st, days))
    (hv : net.volume p.toLower st = .ok data)
    (hpool : data.pool = some pool) :
    get_volume net p period = (.ok
      { pool_address := pool.id
        pair := pool.token0_symbol ++ "/" ++ pool.token1_symbol
        period := period
        total_volume_usd := (data.poolDayDatas.map PoolDayData.volumeUSD).sum
        average_daily_volume_usd :=
          (data.poolDayDatas.map PoolDayData.volumeUSD).sum / (days : ℚ)
        total_fees_usd := (data.poolDayDatas.map PoolDayData.feesUSD).sum
        average_daily_fees_usd :=
          (data.poolDayDatas.map PoolDayData.feesUSD).sum / (days : ℚ)
        data_points := data.poolDayDatas.length },
      [NetRequest.volumeQuery p.toLower st]) := by
  have hdays : 0 < days := by rcases periodBranch_days hp with h | h | h <;> omega
  simp only [get_volume, hp, hv, hpool]
  rw [if_pos hdays, if_pos hdays]

/-- Shape of `get_volume` on an unrecognised period. -/
lemma get_volume_none_shape {net : Network} {p period : String}
    (hp : periodBranch net.now period = none) :
    get_volume net p period = (.error invalidPeriodMessage, []) := by
  simp only [get_volume, hp]

/-- Shape of `get_volume` when the network call raises. -/
lemma get_volume_exn_shape {net : Network} {p period : String} {st : ℤ}
    {days : ℕ} {m : String}
    (hp : periodBranch net.now period = some (st, days))
    (hv : net.volume p.toLower st = .exn m) :
    get_volume net p period =
      (.error ("Failed to fetch volume: " ++ m),
        [NetRequest.volumeQuery p.toLower st]) := by
  simp only [get_volume, hp, hv]

/-- Shape of `get_volume` on a GraphQL-level error reply. -/
lemma get_volume_graphql_shape {net : Network} {p period : String} {st : ℤ}
    {days : ℕ} {m : String}
    (hp : periodBranch net.now period = some (st, days))
    (hv : net.volume p.toLower st = .graphqlErrors m) :
    get_volume net p period =
      (.error ("GraphQL errors: " ++ m),
        [NetRequest.volumeQuery p.toLower st]) := by
  simp only [get_volume, hp, hv]

/-- Shape of `get_volume` when the reply carries a `null` pool. -/
lemma get_volume_nopool_shape {net : Network} {p period : String} {st : ℤ}
    {days : ℕ} {data : VolumeQueryData}
    (hp : periodBranch net.now period = some (st, days))
    (hv : net.volume p.toLower st = .ok data) (hpool : data.pool = none) :
    get_volume net p period =
      (.error ("Pool " ++ p ++ " not found"),
        [NetRequest.volumeQuery p.toLower st]) := by
  simp only [get_volume, hp, hv, hpool]

/-- A successful `get_volume` call arises only from a recognised period, an
ok reply and a non-null pool. -/
lemma get_volume_ok_inv {net : Network} {p period : String} {r : VolumeOk}
    (h : (get_volume net p period).1 = .ok r) :
    ∃ st days data pool,
      periodBranch net.now period = some (st, days) ∧
      net.volume p.toLower st = .ok data ∧ data.pool = some pool := by
  rcases hp : periodBranch net.now period with _ | ⟨st, days⟩
  · rw [get_volume_none_shape hp] at h
    exact ToolReturn.noConfusion h
  · rcases hv : net.volume p.toLower st with m | m | data
    · rw [get_volume_exn_shape hp hv] at h
      exact ToolReturn.noConfusion h
    · rw [get_volume_graphql_shape hp hv] at h
      exact ToolReturn.noConfusion h
    · rcases hpool : data.pool with _ | pool
      · rw [get_volume_nopool_shape hp hv hpool] at h
        exact ToolReturn.noConfusion h
      · exact ⟨st, days, data, pool, rfl, hv, hpool⟩

/-!
Claims C5, C7, C8, C10.
-/

/-- C8: for every period string other than `24h`, `7d` or `30d`, `get_volume`
returns the invalid-period error result immediately, with an empty request
trace (no network call is attempted). -/
theorem get_volume_invalid_period (net : Network) (p period : String)
    (h1 : period ≠ "24h") (h2 : period ≠ "7d") (h3 : period ≠ "30d") :
    get_volume net p period = (.error invalidPeriodMessage, []) := by
  have hp : periodBranch net.now period = none := by
    unfold periodBranch
    rw [if_neg h1, if_neg h2, if_neg h3]
  exact get_volume_none_shape hp

/-- Witness for C8 at the concrete period string `1w`. -/
theorem get_volume_invalid_period_witness :
    get_volume netVol "0xpool" "1w" = (.error invalidPeriodMessage, []) :=
  get_volume_invalid_period netVol "0xpool" "1w"
    (by decide) (by decide) (by decide)

/-- C10: a recognised period always yields a day count of 1, 7 or 30, hence
strictly positive, and every successful result's averages are the totals
actually divided by that day count (the guarded `else 0` branches of the
average computations are never what a successful call returns). -/
theorem get_volume_days_positive (net : Network) (p period : String)
    (st : ℤ) (days : ℕ)
    (hp : periodBranch net.now period = some (st, days)) :
    ((days = 1 ∨ days = 7 ∨ days = 30) ∧ 0 < days) ∧
    ∀ r : VolumeOk, (get_volume net p period).1 = .ok r →
      r.average_daily_volume_usd = r.total_volume_usd / (days : ℚ) ∧
      r.average_daily_fees_usd = r.total_fees_usd / (days : ℚ) := by
  refine ⟨⟨periodBranch_days hp, ?_⟩, ?_⟩
  · rcases periodBranch_days hp with h | h | h <;> omega
  · intro r hr
    obtain ⟨st', days', data, pool, hp', hv, hpool⟩ := get_volume_ok_inv hr
    rw [hp] at hp'
    obtain ⟨rfl, rfl⟩ : st = st' ∧ days = days' := by
      simpa [Prod.ext_iff] using hp'
    rw [get_volume_ok_shape net p period st days data pool hp hv hpool] at hr
    simp only [ToolReturn.ok.injEq] at hr
    subst hr
    exact ⟨rfl, rfl⟩

/-- Witness for C10 at the period `30d` on the three-record fixture. -/
theorem get_volume_days_positive_witness :
    (((30 : ℕ) = 1 ∨ (30 : ℕ) = 7 ∨ (30 : ℕ) = 30) ∧ 0 < (30 : ℕ)) ∧
    ∀ r : VolumeOk, (get_volume netVol "0xpool" "30d").1 = .ok r →
      r.average_daily_volume_usd = r.total_volume_usd / ((30 : ℕ) : ℚ) ∧
      r.average_daily_fees_usd = r.total_fees_usd / ((30 : ℕ) : ℚ) :=
  get_volume_days_positive netVol "0xpool" "30d" (0 - 30 * 86400) 30 (by decide)

/-- C5 (amended): every successful `get_volume` call reports the sum of the
daily `volumeUSD` and `feesUSD` values as totals and divides them by the
period's day count for the averages; the day count is 1, 7 or 30 — a 3-day
period is not expressible — and for the three records with volumes
100, 200, 300 and fees 1, 2, 3 under the `24h` period the totals are 600 and
6 and the daily averages 600 and 6. -/
theorem get_volume_aggregation :
    (∀ (net : Network) (p period : String) (st : ℤ) (days : ℕ)
        (data : VolumeQueryData) (pool : PoolMeta),
      periodBranch net.now period = some (st, days) →
      net.volume p.toLower st = .ok data →
      data.pool = some pool →
      (get_volume net p period).1 = .ok
        { pool_address := pool.id
          pair := pool.token0_symbol ++ "/" ++ pool.token1_symbol
          period := period
          total_volume_usd := (data.poolDayDatas.map PoolDayData.volumeUSD).sum
          average_daily_volume_usd :=
            (data.poolDayDatas.map PoolDayData.volumeUSD).sum / (days : ℚ)
          total_fees_usd := (data.poolDayDatas.map PoolDayData.feesUSD).sum
          average_daily_fees_usd :=
            (data.poolDayDatas.map PoolDayData.feesUSD).sum / (days : ℚ)
          data_points := data.poolDayDatas.length }) ∧
    (get_volume netVol "0xpool" "24h").1 = .ok
      { pool_address := "0xpool", pair := "USDC/WETH", period := "24h"
        total_volume_usd := 600, average_daily_volume_usd := 600
        total_fees_usd := 6, average_daily_fees_usd := 6, data_points := 3 } := by
  constructor
  · intro net p period st days data pool hp hv hpool
    rw [get_volume_ok_shape net p period st days data pool hp hv hpool]
  · have h := get_volume_ok_shape netVol "0xpool" "24h" (0 - 86400) 1
      { pool := some poolMetaFix, poolDayDatas := days3 } poolMetaFix
      (by decide) rfl rfl
    rw [h]
    simp only [ToolReturn.ok.injEq, VolumeOk.mk.injEq, poolMetaFix]
    refine ⟨?_, ?_, ?_, ?_, ?_, ?_, ?_, ?_⟩ <;> first | trivial | norm_num [days3]

/-- Witness for C5's universally quantified part on the concrete fixture. -/
theorem get_volume_aggregation_witness :
    (get_volume netVol "0xpool" "7d").1 = .ok
      { pool_address := poolMetaFix.id
        pair := poolMetaFix.token0_symbol ++ "/" ++ poolMetaFix.token1_symbol
        period := "7d"
        total_volume_usd := (days3.map PoolDayData.volumeUSD).sum
        average_daily_volume_usd :=
          (days3.map PoolDayData.volumeUSD).sum / ((7 : ℕ) : ℚ)
        total_fees_usd := (days3.map PoolDayData.feesUSD).sum
        average_daily_fees_usd :=
          (days3.map PoolDayData.feesUSD).sum / ((7 : ℕ) : ℚ)
        data_points := days3.length } :=
  get_volume_aggregation.1 netVol "0xpool" "7d" (0 - 7 * 86400) 7
    { pool := some poolMetaFix, poolDayDatas := days3 } poolMetaFix
    (by decide) rfl rfl

/-- C5 counterexample: the spec's 3-day instance is not realisable — the
period string `3d` is rejected without a call, and on the very data of the
instance none of the three accepted periods yields an average daily volume of
200 (they give 600, 600/7 and 20). -/
theorem get_volume_aggregation_counterexample :
    (get_volume netVol "0xpool" "3d").1 = .error invalidPeriodMessage ∧
    (get_volume netVol "0xpool" "24h").1 ≠ .error invalidPeriodMessage ∧
    (∀ r : VolumeOk, (get_volume netVol "0xpool" "24h").1 = .ok r →
      r.average_daily_volume_usd = 600) ∧
    (∀ r : VolumeOk, (get_volume netVol "0xpool" "7d").1 = .ok r →
      r.average_daily_volume_usd = 600 / 7) ∧
    (∀ r : VolumeOk, (get_volume netVol "0xpool" "30d").1 = .ok r →
      r.average_daily_volume_usd = 20) := by
  have h24 := get_volume_ok_shape netVol "0xpool" "24h" (0 - 86400) 1 _
    poolMetaFix (by decide) rfl rfl
  have h7 := get_volume_ok_shape netVol "0xpool" "7d" (0 - 7 * 86400) 7 _
    poolMetaFix (by decide) rfl rfl
  have h30 := get_volume_ok_shape netVol "0xpool" "30d" (0 - 30 * 86400) 30 _
    poolMetaFix (by decide) rfl rfl
  refine ⟨?_, ?_, ?_, ?_, ?_⟩
  · have h3 : periodBranch netVol.now "3d" = none := by decide
    rw [get_volume_none_shape h3]
  · rw [h24]; simp
  · intro r hr
    rw [h24] at hr
    simp only [ToolReturn.ok.injEq] at hr
    subst hr
    norm_num [days3]
  · intro r hr
    rw [h7] at hr
    simp only [ToolReturn.ok.injEq] at hr
    subst hr
    norm_num [days3]
  · intro r hr
    rw [h30] at hr
    simp only [ToolReturn.ok.injEq] at hr
    subst hr
    norm_num [days3]

/-- C7: when the TVL lookup succeeds with a TVL of zero, `get_apy` returns
the zero-TVL error and performs no further (volume) network request: its
request trace is exactly the TVL call's trace. -/
theorem get_apy_zero_tvl (net : Network) (p : String) (t : TVLOk)
    (h : (get_tvl net p).1 = .ok t) (h0 : t.tvl_usd = 0) :
    get_apy net p =
      (.error "TVL is zero or negative, cannot calculate APY", (get_tvl net p).2) := by
  have hpair : get_tvl net p = (.ok t, (get_tvl net p).2) := by
    rw [← h]
  rw [get_apy, hpair]
  simp only []
  rw [if_pos (le_of_eq h0)]

/-- Witness for C7 on the zero-TVL oracle. -/
theorem get_apy_zero_tvl_witness :
    get_apy netZero "0xpool" =
      (.error "TVL is zero or negative, cannot calculate APY",
        (get_tvl netZero "0xpool").2) :=
  get_apy_zero_tvl netZero "0xpool" tvlZeroFix rfl rfl

/-!
Helper lemmas about `get_apy`, then claims C6 and C3.
-/

/-- Rounding zero gives zero. -/
lemma round2_zero : round2 0 = 0 := by
  simp [round2]

/-- An error from the TVL sub-call is returned by `get_apy` unchanged. -/
lemma get_apy_tvl_error {net : Network} {p e : String}
    (h : (get_tvl net p).1 = .error e) : (get_apy net p).1 = .error e := by
  have hG : get_tvl net p = (.error e, (get_tvl net p).2) := by rw [← h]
  unfold get_apy
  rw [hG]

/-- An error from the 24h volume sub-call is returned by `get_apy`
unchanged (given a positive TVL). -/
lemma get_apy_vol24_error {net : Network} {p e : String} {t : TVLOk}
    (ht : (get_tvl net p).1 = .ok t) (htvl : ¬ t.tvl_usd ≤ 0)
    (hv : (get_volume net p "24h").1 = .error e) :
    (get_apy net p).1 = .error e := by
  have hG : get_tvl net p = (.ok t, (get_tvl net p).2) := by rw [← ht]
  have hV : get_volume net p "24h" = (.error e, (get_volume net p "24h").2) := by
    rw [← hv]
  unfold get_apy
  rw [hG]
  dsimp only
  rw [if_neg htvl, hV]

/-- With TVL and 24h volume both successful, `get_apy` succeeds and its
`apy_24h` field is the compounded daily fee rate. -/
lemma get_apy_apy24h {net : Network} {p : String} {t : TVLOk} {v : VolumeOk}
    (ht : (get_tvl net p).1 = .ok t) (htvl : ¬ t.tvl_usd ≤ 0)
    (hv : (get_volume net p "24h").1 = .ok v) :
    apy24hOf (get_apy net p).1 =
      some (round2 (((1 + v.total_fees_usd / t.tvl_usd) ^ (365 : ℕ) - 1) * 100)) := by
  have hG : get_tvl net p = (.ok t, (get_tvl net p).2) := by rw [← ht]
  have hV : get_volume net p "24h" = (.ok v, (get_volume net p "24h").2) := by
    rw [← hv]
  unfold get_apy
  rw [hG]
  dsimp only
  rw [if_neg htvl, hV]
  rfl

/-- With TVL and 24h volume successful, `get_apy` returns a success-shaped
dictionary (it does not propagate later failures). -/
lemma get_apy_isOk {net : Network} {p : String} {t : TVLOk} {v : VolumeOk}
    (ht : (get_tvl net p).1 = .ok t) (htvl : ¬ t.tvl_usd ≤ 0)
    (hv : (get_volume net p "24h").1 = .ok v) :
    isOkReturn (get_apy net p).1 = true := by
  have hG : get_tvl net p = (.ok t, (get_tvl net p).2) := by rw [← ht]
  have hV : get_volume net p "24h" = (.ok v, (get_volume net p "24h").2) := by
    rw [← hv]
  unfold get_apy
  rw [hG]
  dsimp only
  rw [if_neg htvl, hV]
  rfl

/-- When the 7d volume sub-call errors, `get_apy` still succeeds and reports
`apy_7d = 0`. -/
lemma get_apy_apy7d_err {net : Network} {p e : String} {t : TVLOk} {v : VolumeOk}
    (ht : (get_tvl net p).1 = .ok t) (htvl : ¬ t.tvl_usd ≤ 0)
    (hv : (get_volume net p "24h").1 = .ok v)
    (h7 : (get_volume net p "7d").1 = .error e) :
    apy7dOf (get_apy net p).1 = some 0 := by
  have hG : get_tvl net p = (.ok t, (get_tvl net p).2) := by rw [← ht]
  have hV : get_volume net p "24h" = (.ok v, (get_volume net p "24h").2) := by
    rw [← hv]
  have hV7 : get_volume net p "7d" = (.error e, (get_volume net p "7d").2) := by
    rw [← h7]
  unfold get_apy
  rw [hG]
  dsimp only
  rw [if_neg htvl, hV]
  dsimp only
  rw [hV7]
  dsimp only [apy7dOf]
  rw [round2_zero]

/-- When the 30d volume sub-call errors, `get_apy` still succeeds and reports
`apy_30d = 0`. -/
lemma get_apy_apy30d_err {net : Network} {p e : String} {t : TVLOk} {v : VolumeOk}
    (ht : (get_tvl net p).1 = .ok t) (htvl : ¬ t.tvl_usd ≤ 0)
    (hv : (get_volume net p "24h").1 = .ok v)
    (h30 : (get_volume net p "30d").1 = .error e) :
    apy30dOf (get_apy net p).1 = some 0 := by
  have hG : get_tvl net p = (.ok t, (get_tvl net p).2) := by rw [← ht]
  have hV : get_volume net p "24h" = (.ok v, (get_volume net p "24h").2) := by
    rw [← hv]
  have hV30 : get_volume net p "30d" = (.error e, (get_volume net p "30d").2) := by
    rw [← h30]
  unfold get_apy
  rw [hG]
  dsimp only
  rw [if_neg htvl, hV]
  dsimp only
  rw [hV30]
  dsimp only [apy30dOf]
  rw [round2_zero]

/-- With a non-positive successful TVL, `get_apy` returns the zero-TVL
error. -/
lemma get_apy_nonpos_tvl {net : Network} {p : String} {t : TVLOk}
    (h : (get_tvl net p).1 = .ok t) (h0 : t.tvl_usd ≤ 0) :
    (get_apy net p).1 = .error "TVL is zero or negative, cannot calculate APY" := by
  have hpair : get_tvl net p = (.ok t, (get_tvl net p).2) := by
    rw [← h]
  unfold get_apy
  rw [hpair]
  dsimp only
  rw [if_pos h0]

/-- Full shape of a successful `get_apy` result in terms of its TVL and 24h
volume sub-call results. -/
lemma get_apy_fields {net : Network} {p : String} {t : TVLOk} {v : VolumeOk}
    (ht : (get_tvl net p).1 = .ok t) (htvl : ¬ t.tvl_usd ≤ 0)
    (hv : (get_volume net p "24h").1 = .ok v) :
    (get_apy net p).1 = .ok
      { pool_address := p
        pair := t.pair
        fee_tier := t.fee_tier
        tvl_usd := t.tvl_usd
        apy_24h := round2 (((1 + v.total_fees_usd / t.tvl_usd) ^ (365 : ℕ) - 1) * 100)
        apy_7d := round2 (match (get_volume net p "7d").1 with
          | .error _ => 0
          | .ok v7 => ((1 + v7.average_daily_fees_usd / t.tvl_usd) ^ (365 : ℕ) - 1) * 100)
        apy_30d := round2 (match (get_volume net p "30d").1 with
          | .error _ => 0
          | .ok v30 => ((1 + v30.average_daily_fees_usd / t.tvl_usd) ^ (365 : ℕ) - 1) * 100)
        daily_fees_usd := v.total_fees_usd
        daily_rate := round4 (v.total_fees_usd / t.tvl_usd * 100)
        note := "APY calculated from fees generated, actual returns may vary due to impermanent loss" } := by
  have hG : get_tvl net p = (.ok t, (get_tvl net p).2) := by rw [← ht]
  have hV : get_volume net p "24h" = (.ok v, (get_volume net p "24h").2) := by
    rw [← hv]
  unfold get_apy
  rw [hG]
  dsimp only
  rw [if_neg htvl, hV]

/-- C6: every successful `get_apy` call computes `apy_24h` by the compounding
formula on its sub-call results — daily rate `daily_fees / tvl_usd` compounded
365 times — and in particular, when the TVL sub-call reports 1,000,000 USD
and the 24h volume sub-call 1,000 USD of fees, the daily rate is 1/1000 and
`apy_24h` rounds to 44.03, within 0.01 of 44.02. -/
theorem get_apy_formula :
    (∀ (net : Network) (p : String) (r : ApyOk),
      (get_apy net p).1 = .ok r →
      ∃ (t : TVLOk) (v : VolumeOk),
        (get_tvl net p).1 = .ok t ∧ ¬ t.tvl_usd ≤ 0 ∧
        (get_volume net p "24h").1 = .ok v ∧
        r.tvl_usd = t.tvl_usd ∧ r.daily_fees_usd = v.total_fees_usd ∧
        r.apy_24h =
          round2 (((1 + v.total_fees_usd / t.tvl_usd) ^ (365 : ℕ) - 1) * 100)) ∧
    (∀ (net : Network) (p : String) (t : TVLOk) (v : VolumeOk),
      (get_tvl net p).1 = .ok t → t.tvl_usd = 1000000 →
      (get_volume net p "24h").1 = .ok v → v.total_fees_usd = 1000 →
      apy24hOf (get_apy net p).1 =
        some (round2 (((1 + 1 / 1000 : ℚ) ^ (365 : ℕ) - 1) * 100)) ∧
      apy24hOf (get_apy net p).1 = some (4403 / 100) ∧
      |(4403 : ℚ) / 100 - 4402 / 100| ≤ 1 / 100) := by
  constructor
  · intro net p r h
    rcases hT : (get_tvl net p).1 with m | t
    · rw [get_apy_tvl_error hT] at h
      exact ToolReturn.noConfusion h
    · by_cases h0 : t.tvl_usd ≤ 0
      · rw [get_apy_nonpos_tvl hT h0] at h
        exact ToolReturn.noConfusion h
      · rcases hV : (get_volume net p "24h").1 with m | v
        · rw [get_apy_vol24_error hT h0 hV] at h
          exact ToolReturn.noConfusion h
        · rw [get_apy_fields hT h0 hV] at h
          simp only [ToolReturn.ok.injEq] at h
          subst h
          exact ⟨t, v, rfl, h0, rfl, rfl, rfl, rfl⟩
  · intro net p t v ht h6 hv hf
    have htvl : ¬ t.tvl_usd ≤ 0 := by rw [h6]; norm_num
    have h24 := get_apy_apy24h ht htvl hv
    have hdr : v.total_fees_usd / t.tvl_usd = 1 / 1000 := by
      rw [h6, hf]; norm_num
    rw [hdr] at h24
    have hval : round2 (((1 + 1 / 1000 : ℚ) ^ (365 : ℕ) - 1) * 100) = 4403 / 100 := by
      unfold round2
      have hr : round ((((1 + 1 / 1000 : ℚ) ^ (365 : ℕ) - 1) * 100) * 100) = 4403 := by
        rw [round_eq, Int.floor_eq_iff]
        norm_num
      rw [hr]
      norm_num
    exact ⟨h24, by rw [h24, hval], by rw [abs_le]; norm_num⟩

/-- Witness for C6: both the universal formula clause (at the concrete
success record of the million-dollar oracle) and the numeric instance. -/
theorem get_apy_formula_witness :
    (∃ (t : TVLOk) (v : VolumeOk),
      (get_tvl netAPY "0xpool").1 = .ok t ∧ ¬ t.tvl_usd ≤ 0 ∧
      (get_volume netAPY "0xpool" "24h").1 = .ok v ∧
      apyFix.tvl_usd = t.tvl_usd ∧ apyFix.daily_fees_usd = v.total_fees_usd ∧
      apyFix.apy_24h =
        round2 (((1 + v.total_fees_usd / t.tvl_usd) ^ (365 : ℕ) - 1) * 100)) ∧
    (apy24hOf (get_apy netAPY "0xpool").1 =
      some (round2 (((1 + 1 / 1000 : ℚ) ^ (365 : ℕ) - 1) * 100)) ∧
    apy24hOf (get_apy netAPY "0xpool").1 = some (4403 / 100) ∧
    |(4403 : ℚ) / 100 - 4402 / 100| ≤ 1 / 100) :=
  ⟨get_apy_formula.1 netAPY "0xpool" apyFix rfl,
   get_apy_formula.2 netAPY "0xpool" tvlMillionFix vol24Fix rfl rfl rfl
    (by simp [vol24Fix, day1000])⟩

/-- C3 (amended): an error from the TVL sub-call or the 24h volume sub-call
short-circuits `get_apy` with the propagated error; an error from the 7d or
30d volume sub-call does not — `get_apy` still returns a success result whose
`apy_7d` (resp. `apy_30d`) field is the substituted value 0. -/
theorem get_apy_error_propagation :
    (∀ (net : Network) (p e : String),
      (get_tvl net p).1 = .error e → (get_apy net p).1 = .error e) ∧
    (∀ (net : Network) (p e : String) (t : TVLOk),
      (get_tvl net p).1 = .ok t → ¬ t.tvl_usd ≤ 0 →
      (get_volume net p "24h").1 = .error e → (get_apy net p).1 = .error e) ∧
    (∀ (net : Network) (p e : String) (t : TVLOk) (v : VolumeOk),
      (get_tvl net p).1 = .ok t → ¬ t.tvl_usd ≤ 0 →
      (get_volume net p "24h").1 = .ok v →
      (get_volume net p "7d").1 = .error e →
      isOkReturn (get_apy net p).1 = true ∧ apy7dOf (get_apy net p).1 = some 0) ∧
    (∀ (net : Network) (p e : String) (t : TVLOk) (v : VolumeOk),
      (get_tvl net p).1 = .ok t → ¬ t.tvl_usd ≤ 0 →
      (get_volume net p "24h").1 = .ok v →
      (get_volume net p "30d").1 = .error e →
      isOkReturn (get_apy net p).1 = true ∧ apy30dOf (get_apy net p).1 = some 0) := by
  refine ⟨?_, ?_, ?_, ?_⟩
  · intro net p e h
    exact get_apy_tvl_error h
  · intro net p e t ht htvl hv
    exact get_apy_vol24_error ht htvl hv
  · intro net p e t v ht htvl hv h7
    exact ⟨get_apy_isOk ht htvl hv, get_apy_apy7d_err ht htvl hv h7⟩
  · intro net p e t v ht htvl hv h30
    exact ⟨get_apy_isOk ht htvl hv, get_apy_apy30d_err ht htvl hv h30⟩

/-- Witness for C3's four cases on concrete oracles: a failing TVL call, a
failing 24h volume call, and failing 7d/30d volume calls. -/
theorem get_apy_error_propagation_witness :
    (get_apy netVol "0xpool").1 = .error ("Failed to fetch TVL: " ++ "offline") ∧
    (get_apy netVolErr "0xpool").1 =
      .error ("Failed to fetch volume: " ++ "conn") ∧
    (isOkReturn (get_apy netAPY "0xpool").1 = true ∧
      apy7dOf (get_apy netAPY "0xpool").1 = some 0) ∧
    (isOkReturn (get_apy netAPY "0xpool").1 = true ∧
      apy30dOf (get_apy netAPY "0xpool").1 = some 0) :=
  ⟨get_apy_error_propagation.1 netVol "0xpool"
      ("Failed to fetch TVL: " ++ "offline") rfl,
   get_apy_error_propagation.2.1 netVolErr "0xpool"
      ("Failed to fetch volume: " ++ "conn") tvlMillionFix rfl (by decide) rfl,
   get_apy_error_propagation.2.2.1 netAPY "0xpool"
      ("Failed to fetch volume: " ++ "conn") tvlMillionFix vol24Fix rfl
      (by decide) rfl rfl,
   get_apy_error_propagation.2.2.2 netAPY "0xpool"
      ("Failed to fetch volume: " ++ "conn") tvlMillionFix vol24Fix rfl
      (by decide) rfl rfl⟩

/-- C3 counterexample: a concrete pool whose 7d volume sub-call fails, while
`get_apy` nevertheless returns a success result (not a propagated error) with
`apy_7d` substituted by 0 — refuting propagation for every volume sub-call. -/
theorem get_apy_error_propagation_counterexample :
    (get_volume netAPY "0xpool" "7d").1 =
      .error ("Failed to fetch volume: " ++ "conn") ∧
    isOkReturn (get_apy netAPY "0xpool").1 = true ∧
    apy7dOf (get_apy netAPY "0xpool").1 = some 0 := by
  have htvl : ¬ tvlMillionFix.tvl_usd ≤ 0 := by decide
  have h7 : (get_volume netAPY "0xpool" "7d").1 =
      .error ("Failed to fetch volume: " ++ "conn") := rfl
  exact ⟨h7, get_apy_isOk rfl htvl rfl,
    get_apy_apy7d_err rfl htvl (v := vol24Fix) rfl h7⟩

/-!
Helper lemmas about the agent loop, then claims C1, C2, C4 and C9.
-/

/-- An unregistered name makes the dictionary lookup raise `KeyError`. -/
lemma execOne_unknown {net : Network} {tc : ToolCall}
    (h : available_functions tc.name = none) :
    execOne net tc = .error (.keyError tc.name) := by
  simp [execOne, h]

/-- When every call in the batch executes, the loop body appends exactly one
tool message per call, in request order, each carrying its request id. -/
lemma execToolCalls_all_ok (net : Network) :
    ∀ (tcs : List ToolCall) (msgs : List Message),
      (∀ tc ∈ tcs, (execOne net tc).isOk = true) →
      execToolCalls net tcs msgs =
        (.ok (), msgs ++ tcs.map (fun tc => Message.tool tc.id (payloadOf net tc))) := by
  intro tcs
  induction tcs with
  | nil => intro msgs _; simp [execToolCalls]
  | cons tc rest ih =>
      intro msgs h
      have h1 := h tc (by simp)
      rcases hE : execOne net tc with e | pl
      · rw [hE] at h1
        simp [Except.isOk, Except.toBool] at h1
      · have hpl : payloadOf net tc = pl := by simp [payloadOf, hE, Except.toOption]
        have hstep : execToolCalls net (tc :: rest) msgs =
            execToolCalls net rest (msgs ++ [Message.tool tc.id pl]) := by
          simp [execToolCalls, hE]
        rw [hstep, ih _ (fun tc' hm => h tc' (List.mem_cons_of_mem _ hm))]
        simp [hpl, List.append_assoc]

/-- If an unknown name follows a prefix of executable calls, the loop body
appends the prefix's tool messages and then raises `KeyError`. -/
lemma execToolCalls_unknown (net : Network) :
    ∀ (pre : List ToolCall) (tc : ToolCall) (post : List ToolCall)
      (msgs : List Message),
      (∀ tc' ∈ pre, (execOne net tc').isOk = true) →
      available_functions tc.name = none →
      execToolCalls net (pre ++ tc :: post) msgs =
        (.error (.keyError tc.name),
          msgs ++ pre.map (fun tc' => Message.tool tc'.id (payloadOf net tc'))) := by
  intro pre
  induction pre with
  | nil =>
      intro tc post msgs _ hun
      simp [execToolCalls, execOne_unknown hun]
  | cons q qs ih =>
      intro tc post msgs hpre hun
      have h1 := hpre q (by simp)
      rcases hE : execOne net q with e | pl
      · rw [hE] at h1
        simp [Except.isOk, Except.toBool] at h1
      · have hpl : payloadOf net q = pl := by simp [payloadOf, hE, Except.toOption]
        have hstep : execToolCalls net ((q :: qs) ++ tc :: post) msgs =
            execToolCalls net (qs ++ tc :: post) (msgs ++ [Message.tool q.id pl]) := by
          simp [execToolCalls, hE]
        rw [hstep, ih tc post _ (fun tc' hm => hpre tc' (List.mem_cons_of_mem _ hm)) hun]
        simp [hpl, List.append_assoc]

/-- The loop executes at most `fuel` iterations. -/
lemma runFrom_iterations_le (net : Network)
    (model : List Message → AssistantResponse) :
    ∀ (fuel : ℕ) (msgs : List Message),
      (runFrom net model fuel msgs).iterations ≤ fuel := by
  intro fuel
  induction fuel with
  | zero => intro msgs; exact Nat.le_refl 0
  | succ n ih =>
      intro msgs
      simp only [runFrom]
      split
      · exact Nat.le_add_left 1 n
      · split
        · exact Nat.le_add_left 1 n
        · exact Nat.succ_le_succ (ih _)

/-- Under a model that always requests executable tool calls, the loop runs
its entire budget and returns the abort message. -/
lemma runFrom_always_tools (net : Network)
    (model : List Message → AssistantResponse)
    (H : ∀ ms, (model ms).tool_calls ≠ [] ∧
      ∀ tc ∈ (model ms).tool_calls, (execOne net tc).isOk = true) :
    ∀ (fuel : ℕ) (msgs : List Message),
      (runFrom net model fuel msgs).result = .ok maxIterationsMessage ∧
      (runFrom net model fuel msgs).iterations = fuel := by
  intro fuel
  induction fuel with
  | zero => intro msgs; exact ⟨rfl, rfl⟩
  | succ n ih =>
      intro msgs
      obtain ⟨hne, hok⟩ := H msgs
      have hE := execToolCalls_all_ok net (model msgs).tool_calls
        (msgs ++ [Message.assistant (model msgs).content (model msgs).tool_calls]) hok
      simp only [runFrom]
      rw [if_neg (by simpa using hne), hE]
      dsimp only
      exact ⟨(ih _).1, by rw [(ih _).2]⟩

/-- C2: the agent loop never exceeds `max_iterations` model-invoking
iterations, and a model that requests an executable tool call on every turn
drives it to exactly `max_iterations` iterations, after which it returns the
fixed iteration-exhausted message. -/
theorem run_bounded :
    (∀ (net : Network) (model : List Message → AssistantResponse)
        (msgs : List Message),
      (run net model msgs).iterations ≤ max_iterations) ∧
    (∀ (net : Network) (model : List Message → AssistantResponse)
        (msgs : List Message),
      (∀ ms, (model ms).tool_calls ≠ [] ∧
        ∀ tc ∈ (model ms).tool_calls, (execOne net tc).isOk = true) →
      (run net model msgs).result = .ok maxIterationsMessage ∧
      (run net model msgs).iterations = max_iterations) :=
  ⟨fun net model msgs => runFrom_iterations_le net model max_iterations msgs,
   fun net model msgs H => runFrom_always_tools net model H max_iterations msgs⟩

/-- Witness for C2: a model that always requests `get_tvl` exhausts all 10
iterations and produces the abort message. -/
theorem run_bounded_witness :
    (run netVol modelLoop []).result = .ok maxIterationsMessage ∧
    (run netVol modelLoop []).iterations = max_iterations :=
  run_bounded.2 netVol modelLoop []
    (fun ms => ⟨by simp [modelLoop],
      by intro tc hm
         simp only [modelLoop, List.mem_singleton] at hm
         subst hm
         decide⟩)

/-- C1 (amended): when the model requests a tool whose name is not in
`available_functions` (after a prefix of executable calls), the dictionary
lookup raises `KeyError` through `run` — the iteration appends the assistant
message and the prefix's tool messages but no error tool result for the
unknown name, and the exception escapes the loop. -/
theorem run_unknown_tool_raises (net : Network)
    (model : List Message → AssistantResponse) (fuel : ℕ) (msgs : List Message)
    (c : String) (pre : List ToolCall) (tc : ToolCall) (post : List ToolCall)
    (hm : model msgs = { content := c, tool_calls := pre ++ tc :: post })
    (hpre : ∀ tc' ∈ pre, (execOne net tc').isOk = true)
    (hun : available_functions tc.name = none) :
    runFrom net model (fuel + 1) msgs =
      { result := .error (.keyError tc.name)
        iterations := 1
        messages := (msgs ++ [Message.assistant c (pre ++ tc :: post)]) ++
          pre.map (fun tc' => Message.tool tc'.id (payloadOf net tc')) } := by
  have hE := execToolCalls_unknown net pre tc post
    (msgs ++ [Message.assistant c (pre ++ tc :: post)]) hpre hun
  simp only [runFrom, hm]
  rw [if_neg (by simp), hE]

/-- Witness for C1's amended statement: a `get_tvl` call followed by an
unknown `get_price` call appends the `get_tvl` tool message and then raises
`KeyError "get_price"`. -/
theorem run_unknown_tool_raises_witness :
    runFrom netVol modelPre 10 [] =
      { result := .error (.keyError "get_price")
        iterations := 1
        messages := [Message.assistant "" [tcTvl, tcUnknown],
          Message.tool "call_2" (.tvl (.error ("Failed to fetch TVL: " ++ "offline")))] } :=
  run_unknown_tool_raises netVol modelPre 9 [] "" [tcTvl] tcUnknown [] rfl
    (by intro tc' hm'
        simp only [List.mem_singleton] at hm'
        subst hm'
        decide)
    (by decide)

/-- C1 counterexample: a model hallucinating the tool name `get_price` makes
`run` raise `KeyError` — no error tool result is appended (the conversation
ends with the assistant message alone), refuting the no-exception claim. -/
theorem run_unknown_tool_counterexample :
    (run netVol modelUnknown []).result = .error (.keyError "get_price") ∧
    (run netVol modelUnknown []).messages = [Message.assistant "" [tcUnknown]] :=
  ⟨rfl, rfl⟩

/-- C4 (amended): in an iteration whose assistant message carries requests
that all resolve and execute, exactly one tool message per request is
appended, in request order, the i-th carrying the i-th request's id, after
the verbatim assistant message at the tail of the conversation; the loop then
continues on that extended conversation.  (When a request does not resolve,
only the messages of the preceding requests are appended — see the
counterexample.) -/
theorem run_tool_message_pairing (net : Network)
    (model : List Message → AssistantResponse) (fuel : ℕ) (msgs : List Message)
    (c : String) (tcs : List ToolCall)
    (hm : model msgs = { content := c, tool_calls := tcs })
    (hne : tcs ≠ [])
    (hok : ∀ tc ∈ tcs, (execOne net tc).isOk = true) :
    runFrom net model (fuel + 1) msgs =
      { result := (runFrom net model fuel ((msgs ++ [Message.assistant c tcs]) ++
          tcs.map (fun tc => Message.tool tc.id (payloadOf net tc)))).result
        iterations := (runFrom net model fuel ((msgs ++ [Message.assistant c tcs]) ++
          tcs.map (fun tc => Message.tool tc.id (payloadOf net tc)))).iterations + 1
        messages := (runFrom net model fuel ((msgs ++ [Message.assistant c tcs]) ++
          tcs.map (fun tc => Message.tool tc.id (payloadOf net tc)))).messages } := by
  have hE := execToolCalls_all_ok net tcs (msgs ++ [Message.assistant c tcs]) hok
  simp only [runFrom, hm]
  rw [if_neg (by simpa using hne), hE]

/-- Witness for C4 with a single-request iteration on a one-step budget. -/
theorem run_tool_message_pairing_witness :
    runFrom netVol modelLoop 1 [] =
      { result := .ok maxIterationsMessage
        iterations := 1
        messages := [Message.assistant "" [tcTvl],
          Message.tool "call_2" (.tvl (.error ("Failed to fetch TVL: " ++ "offline")))] } :=
  run_tool_message_pairing netVol modelLoop 0 [] "" [tcTvl] rfl (by simp)
    (by intro tc hm
        simp only [List.mem_singleton] at hm
        subst hm
        decide)

/-- C4 counterexample: an assistant message carrying two requests whose first
is unknown appends zero tool messages (not two) before the loop raises. -/
theorem run_tool_message_pairing_counterexample :
    (modelMixed []).tool_calls.length = 2 ∧
    (run netVol modelMixed []).messages = [Message.assistant "" [tcNope, tcTvl]] ∧
    (run netVol modelMixed []).result = .error (.keyError "nope") :=
  ⟨rfl, rfl, rfl⟩

/-- C9 (amended): a missing model-provider key aborts startup (the OpenAI
client constructor raises), but a missing data-indexing key does not — module
startup succeeds and silently builds a subgraph URL embedding the literal
text `None`, deferring the failure to runtime tool calls. -/
theorem startup_secrets :
    (∀ g : Option String,
      startup { openai_api_key := none, graph_api_key := g } =
        .error "The api_key client option must be set") ∧
    (∀ k : String,
      startup { openai_api_key := some k, graph_api_key := none } =
        .ok { openai_key := k
              subgraph_url :=
                "https://gateway.thegraph.com/api/None/subgraphs/id/5zvR82QoaXYFyDEKLZ9t6v9adgnptxYpKpSbxtgVENFV" }) :=
  ⟨fun _ => rfl, fun _ => rfl⟩

/-- C9 counterexample: with the model-provider key present and the
data-indexing key absent, startup succeeds (no configuration error), refuting
the claim that the absence of either secret fails at startup. -/
theorem startup_secrets_counterexample :
    startup { openai_api_key := some "sk-test", graph_api_key := none } =
      .ok { openai_key := "sk-test"
            subgraph_url :=
              "https://gateway.thegraph.com/api/None/subgraphs/id/5zvR82QoaXYFyDEKLZ9t6v9adgnptxYpKpSbxtgVENFV" } :=
  rfl
